import Mathlib

/-!
Verification of the NetX thermostat TCP client and HTTP coordinator
(`custom_components/netx_thermostat/api.py` and `coordinator.py`).

The Python source is shallowly embedded: every parser and write operation
becomes an executable Lean function over an explicit state record, and the
asynchronous I/O surface (socket reads, timeouts, exceptions) is modelled as
explicit outcome parameters fed to the corresponding transition function.

String primitives (`str.strip`, `str.upper`, `str.split`, `int()`, `float()`)
are embedded as executable list-of-characters functions so that every theorem
below can be checked on concrete inputs by evaluation.
-/

namespace NetX

/-! ## Python string primitives -/

/-- Model of Python `str.strip()`: drop whitespace from both ends. -/
def pyStrip (s : String) : String :=
  ⟨((s.data.dropWhile Char.isWhitespace).reverse.dropWhile Char.isWhitespace).reverse⟩

/-- Model of Python `str.upper()` on ASCII data (all protocol tokens are ASCII). -/
def pyUpper (s : String) : String :=
  ⟨s.data.map Char.toUpper⟩

/-- Split a character list at every occurrence of `sep`.
Mirrors Python list semantics: the empty input yields one empty group, so the
result is always non-empty. -/
def splitChars (sep : Char) : List Char → List (List Char)
  | [] => [[]]
  | c :: rest =>
    match splitChars sep rest with
    | [] => [[]]
    | g :: gs => if c = sep then [] :: g :: gs else (c :: g) :: gs

/-- Model of Python `s.split(sep)` for a one-character separator. -/
def pySplit (sep : Char) (s : String) : List String :=
  (splitChars sep s.data).map String.mk

/-- Find the first occurrence of `sep`, returning the pieces before and after. -/
def breakAt (sep : Char) : List Char → Option (List Char × List Char)
  | [] => none
  | c :: rest =>
    if c = sep then some ([], rest)
    else
      match breakAt sep rest with
      | none => none
      | some (a, b) => some (c :: a, b)

/-- Model of Python `s.split(sep, 1)` for a one-character separator. -/
def pySplit1 (sep : Char) (s : String) : List String :=
  match breakAt sep s.data with
  | none => [s]
  | some (a, b) => [String.mk a, String.mk b]

/-- Model of Python `s.startswith(p)`. -/
def pyStartsWith (s p : String) : Bool :=
  p.data.isPrefixOf s.data

/-- Model of Python `c in s` for a single character. -/
def strContains (s : String) (c : Char) : Bool :=
  s.data.contains c

/-- Model of Python `sub in s` (substring containment). -/
def strContainsSub (sub s : String) : Bool :=
  (List.range (s.data.length + 1)).any fun i => sub.data.isPrefixOf (s.data.drop i)

/-- Decimal value of a digit list. -/
def digitsVal (l : List Char) : Nat :=
  l.foldl (fun a c => 10 * a + (c.toNat - 48)) 0

/-- Model of Python `int(s)` on an already-stripped token: optional sign
followed by one or more decimal digits (digit-group underscores are not
modelled; no protocol token uses them). -/
def pyInt? (s : String) : Option Int :=
  let (sgn, ds) :=
    match s.data with
    | '-' :: r => ((-1 : Int), r)
    | '+' :: r => ((1 : Int), r)
    | r => ((1 : Int), r)
  if ds ≠ [] ∧ ds.all Char.isDigit then some (sgn * (digitsVal ds : Int)) else none

/-- Exponent tail of a float literal: empty, or `e`/`E` with optional sign and
at least one digit. -/
def parseExp : List Char → Option Int
  | [] => some 0
  | c :: r =>
    if c = 'e' ∨ c = 'E' then
      let (es, ds) :=
        match r with
        | '-' :: t => ((-1 : Int), t)
        | '+' :: t => ((1 : Int), t)
        | t => ((1 : Int), t)
      if ds ≠ [] ∧ ds.all Char.isDigit then some (es * (digitsVal ds : Int)) else none
    else none

/-- Model of Python `float(s)` on an already-stripped token, over the finite
decimal fragment the device emits: optional sign, digits with an optional
decimal point (at least one digit overall), optional exponent. The values are
represented exactly as rationals; `inf`/`nan` literals are out of scope. -/
def pyFloat? (s : String) : Option ℚ :=
  let cs := s.data
  let (sgn, cs1) :=
    match cs with
    | '-' :: r => ((-1 : ℚ), r)
    | '+' :: r => ((1 : ℚ), r)
    | _ => ((1 : ℚ), cs)
  let ip := cs1.takeWhile Char.isDigit
  let rest1 := cs1.dropWhile Char.isDigit
  let hasDot : Bool := match rest1 with | '.' :: _ => true | _ => false
  let afterDot := if hasDot then rest1.tail else rest1
  let fp := if hasDot then afterDot.takeWhile Char.isDigit else []
  let rest2 := if hasDot then afterDot.dropWhile Char.isDigit else rest1
  if ip = [] ∧ fp = [] then none
  else
    match parseExp rest2 with
    | none => none
    | some e =>
      let mant : ℚ := (digitsVal ip : ℚ) + (digitsVal fp : ℚ) / ((10 : ℚ) ^ fp.length)
      some (sgn * mant * (10 : ℚ) ^ e)

/-! ## Constants (`const.py`) -/

def CMD_LOGIN : String := "WMLS1D"
def CMD_SET_MODE_MANUAL : String := "WNMS1D"
def CMD_SET_MODE_SCHEDULE : String := "WMS1D"
def CMD_SET_FAN_MANUAL : String := "WNFM1D"
def CMD_SET_FAN_SCHEDULE : String := "WFM1D"
def CMD_SET_COOL_MANUAL : String := "WNCD1D"
def CMD_SET_COOL_SCHEDULE : String := "WOC1D"
def CMD_SET_HEAT_MANUAL : String := "WNHD1D"
def CMD_SET_HEAT_SCHEDULE : String := "WOH1D"
def CMD_SET_TEMP_SCALE : String := "WTS1D"
def CMD_SET_RELAY_MODE : String := "WMRF1D"
def CMD_SET_HUMIDIFICATION : String := "WMHS1D"
def CMD_SET_DEHUMIDIFICATION : String := "WMDHS1D"
def RESP_LOGIN_OK : String := "OK"

/-! ## Device state snapshot (`api.py`, dataclass `NetXThermostatState`) -/

/-- The thermostat snapshot, one field per dataclass field of
`NetXThermostatState`. Temperatures use exact rationals in place of Python
floats; `none` is Python `None`. -/
structure NetXThermostatState where
  indoor_temp : Option ℚ := none
  outdoor_temp : Option ℚ := none
  hvac_mode : Option String := none
  fan_mode : Option String := none
  override_active : Bool := false
  recovery_active : Bool := false
  cool_setpoint : Option Int := none
  heat_setpoint : Option Int := none
  operating_status : Option String := none
  stage : Option Int := none
  event : Option String := none
  humidity : Option Int := none
  temp_scale : String := "F"
  is_manual_mode : Bool := true
  operation_mode : String := "Manual"
  relay1_mode : Option String := none
  relay2_mode : Option String := none
  relay_state : Option String := none
  hum_control_mode : Option String := none
  hum_setpoint : Option Int := none
  hum_variance : Option Int := none
  dehum_control_mode : Option String := none
  dehum_setpoint : Option Int := none
  dehum_variance : Option Int := none
  connected : Bool := false
  last_error : Option String := none
deriving DecidableEq, Repr

/-! ## Read-side parsers (`api.py`) -/

/-- The sentinel tokens `_parse_temp` maps to `None`. -/
def naTokens : List String := ["NA", "--", "", "N/A"]

/-- `NetXThermostatAPI._parse_temp`: strip and uppercase the token, map the
sentinel values to absent, otherwise attempt `float()`; any parse failure is
absent, never an error. -/
def parse_temp (temp_str : String) : Option ℚ :=
  let t := pyUpper (pyStrip temp_str)
  if naTokens.contains t then none
  else pyFloat? t

/-- `NetXThermostatAPI._parse_relay_mode`: comma-split; two or more fields set
both relay modes (stripped, uppercased), exactly one field sets only relay 1.
Python `split` always yields at least one field. -/
def parse_relay_mode (st : NetXThermostatState) (data : String) : NetXThermostatState :=
  let parts := pySplit ',' data
  if parts.length ≥ 2 then
    { st with relay1_mode := some (pyUpper (pyStrip (parts.getD 0 "")))
            , relay2_mode := some (pyUpper (pyStrip (parts.getD 1 ""))) }
  else if parts.length = 1 then
    { st with relay1_mode := some (pyUpper (pyStrip (parts.getD 0 ""))) }
  else st

/-- `NetXThermostatAPI._parse_humidification`: with at least three
comma-separated fields the mode is assigned first; a failing `int()` on the
setpoint (or variance) raises inside the `try`, so the assignments already made
are kept and the remaining ones are skipped — exactly the source's
statement-by-statement exception semantics. -/
def parse_humidification (st : NetXThermostatState) (data : String) : NetXThermostatState :=
  let parts := pySplit ',' data
  if parts.length ≥ 3 then
    let st1 := { st with hum_control_mode := some (pyUpper (pyStrip (parts.getD 0 ""))) }
    match pyInt? (pyStrip (parts.getD 1 "")) with
    | none => st1
    | some sp =>
      let st2 := { st1 with hum_setpoint := some sp }
      match pyInt? (pyStrip (parts.getD 2 "")) with
      | none => st2
      | some v => { st2 with hum_variance := some v }
  else st

/-- `NetXThermostatAPI._parse_dehumidification`: same shape as
`parse_humidification` on the dehumidification fields. -/
def parse_dehumidification (st : NetXThermostatState) (data : String) : NetXThermostatState :=
  let parts := pySplit ',' data
  if parts.length ≥ 3 then
    let st1 := { st with dehum_control_mode := some (pyUpper (pyStrip (parts.getD 0 ""))) }
    match pyInt? (pyStrip (parts.getD 1 "")) with
    | none => st1
    | some sp =>
      let st2 := { st1 with dehum_setpoint := some sp }
      match pyInt? (pyStrip (parts.getD 2 "")) with
      | none => st2
      | some v => { st2 with dehum_variance := some v }
  else st

/-- The truthy override/recovery tokens of `_parse_all_states`. -/
def yesTokens : List String := ["YES", "Y", "TRUE", "1"]

/-- `NetXThermostatAPI._parse_all_states`: comma-split; with at least 11
fields the snapshot fields are updated in source order (cool/heat setpoint
keep their previous value on `int()` failure, stage is reset to absent on
failure); with fewer fields nothing is touched. -/
def parse_all_states (st : NetXThermostatState) (data : String) : NetXThermostatState :=
  let parts := pySplit ',' data
  if parts.length ≥ 11 then
    let st := { st with indoor_temp := parse_temp (parts.getD 0 "") }
    let st := { st with outdoor_temp := parse_temp (parts.getD 1 "") }
    let st := { st with hvac_mode := some (pyUpper (pyStrip (parts.getD 2 ""))) }
    let fan_str := pyUpper (pyStrip (parts.getD 3 ""))
    let st := { st with fan_mode := some (if strContainsSub "ON" fan_str then "ON" else "AUTO") }
    let st := { st with override_active := yesTokens.contains (pyUpper (pyStrip (parts.getD 4 ""))) }
    let st := { st with recovery_active := yesTokens.contains (pyUpper (pyStrip (parts.getD 5 ""))) }
    let st :=
      match pyInt? (pyStrip (parts.getD 6 "")) with
      | some v => { st with cool_setpoint := some v }
      | none => st
    let st :=
      match pyInt? (pyStrip (parts.getD 7 "")) with
      | some v => { st with heat_setpoint := some v }
      | none => st
    let st := { st with operating_status := some (pyUpper (pyStrip (parts.getD 8 ""))) }
    let st :=
      match pyInt? (pyStrip (parts.getD 9 "")) with
      | some v => { st with stage := some v }
      | none => { st with stage := none }
    let ev := pyStrip (parts.getD 10 "")
    { st with event := if pyUpper ev ≠ "NONE" then some ev else none }
  else st

/-- Modelled from the spec: the derived idle flag (`isIdle`) of the device
state is not present in the source dataclass; the spec defines stage `0` as
idle and a failed stage parse (stage absent) as idle, the fail-safe default. -/
def isIdle (st : NetXThermostatState) : Bool :=
  match st.stage with
  | none => true
  | some n => n == 0

/-! ## Connection model (`api.py`, class `NetXThermostatAPI`)

The client attributes that the connection lifecycle mutates. The stream pair
`_reader`/`_writer` is abstracted to a presence flag; the login hash
`base64(sha256(username + ":" + password))` is carried as an opaque string
since no claim inspects its value. -/

structure ClientState where
  username : String := ""
  authHash : String := ""
  authenticated : Bool := false
  hasStream : Bool := false
deriving DecidableEq, Repr

/-- Environment outcome of one `connect()` attempt: where an exception struck,
or the raw login response line that was read. -/
inductive ConnectOutcome where
  | openTimeout
  | openOSError (msg : String)
  | loginTimeout
  | loginIOError (msg : String)
  | loginResponse (resp : String)
deriving DecidableEq, Repr

/-- Environment outcome of the single command round-trip inside
`_send_command` once a connection is in place. -/
inductive CommandOutcome where
  | response (resp : String)
  | timeout
  | ioError (msg : String)
deriving DecidableEq, Repr

/-- `NetXThermostatAPI._close_connection_locked`: drop the stream pair and
clear the authenticated flag. -/
def close_connection_locked (cs : ClientState) : ClientState :=
  { cs with hasStream := false, authenticated := false }

/-- The login line `f"{CMD_LOGIN}{self.username},{auth_hash}\r\n"`. -/
def loginLine (cs : ClientState) : String :=
  CMD_LOGIN ++ cs.username ++ "," ++ cs.authHash ++ "\r\n"

/-- `NetXThermostatAPI.connect`: close any existing connection, open a new
stream, send the login line and read one response; the authenticated flag is
set only when the stripped response starts with `OK`, and every exception
branch leaves it cleared (the initial close already cleared it). Returns the
new client state, the new snapshot, the wire lines written, and the boolean
the method returns. -/
def connect (cs : ClientState) (st : NetXThermostatState) (o : ConnectOutcome) :
    ClientState × NetXThermostatState × List String × Bool :=
  let cs := close_connection_locked cs
  match o with
  | .openTimeout =>
      (cs, { st with connected := false, last_error := some "Connection timeout" }, [], false)
  | .openOSError msg =>
      (cs, { st with connected := false, last_error := some ("Connection failed: " ++ msg) },
        [], false)
  | .loginTimeout =>
      ({ cs with hasStream := true },
        { st with connected := false, last_error := some "Connection timeout" },
        [loginLine cs], false)
  | .loginIOError msg =>
      ({ cs with hasStream := true },
        { st with connected := false, last_error := some msg }, [loginLine cs], false)
  | .loginResponse resp =>
      let cs := { cs with hasStream := true }
      let r := pyStrip resp
      if pyStartsWith r RESP_LOGIN_OK then
        ({ cs with authenticated := true },
          { st with connected := true, last_error := none }, [loginLine cs], true)
      else
        ({ cs with authenticated := false },
          { st with connected := false, last_error := some ("Authentication failed: " ++ r) },
          [loginLine cs], false)

/-- `NetXThermostatAPI.disconnect`: close the connection and clear the
snapshot's connected flag. -/
def disconnect (cs : ClientState) (st : NetXThermostatState) :
    ClientState × NetXThermostatState :=
  (close_connection_locked cs, { st with connected := false })

/-- The command/response exchange inside `_send_command` after any needed
reconnect: bail out (response `None`) when no stream pair is present, strip
and return the response line on success, and on timeout or I/O error clear the
authenticated and connected flags and return `None`. `sent0` carries wire
lines already written by the implicit reconnect. -/
def send_command_exchange (cs : ClientState) (st : NetXThermostatState)
    (sent0 : List String) (o : CommandOutcome) (command : String) :
    ClientState × NetXThermostatState × List String × Option String :=
  if ¬ cs.hasStream then (cs, st, sent0, none)
  else
    match o with
    | .response resp =>
        (cs, st, sent0 ++ [command ++ "\r\n"], some (pyStrip resp))
    | .timeout =>
        ({ cs with authenticated := false }, { st with connected := false },
          sent0 ++ [command ++ "\r\n"], none)
    | .ioError _ =>
        ({ cs with authenticated := false }, { st with connected := false },
          sent0 ++ [command ++ "\r\n"], none)

/-- `NetXThermostatAPI._send_command`: lazily reconnect when not
authenticated (a failed reconnect returns `None` without sending the
command), then perform the exchange. -/
def send_command (cs : ClientState) (st : NetXThermostatState) (co : ConnectOutcome)
    (o : CommandOutcome) (command : String) :
    ClientState × NetXThermostatState × List String × Option String :=
  if ¬ cs.authenticated then
    match connect cs st co with
    | (cs1, st1, sent1, ok) =>
      if ¬ ok then (cs1, st1, sent1, none)
      else send_command_exchange cs1 st1 sent1 o command
  else send_command_exchange cs st [] o command

/-! ## Write commands (`api.py`) -/

/-- `NetXThermostatAPI._validate_write_response`: reject a missing response,
a response with no `:`; split at the first `:`; reject when the response does
not start with the command's text before its first `D`; when an expected value
was supplied, reject when the stripped echoed value differs; otherwise
accept. -/
def validate_write_response (command : String) (response : Option String)
    (expected_value : Option String) : Bool :=
  match response with
  | none => false
  | some resp =>
    if ¬ strContains resp ':' then false
    else
      let parts := pySplit1 ':' resp
      if parts.length ≠ 2 then false
      else
        let resp_value := parts.getD 1 ""
        if ¬ pyStartsWith resp ((pySplit 'D' command).getD 0 "") then false
        else
          match expected_value with
          | some e => if pyStrip resp_value ≠ e then false else true
          | none => true

/-- `NetXThermostatAPI.async_set_hvac_mode`: uppercase the mode, reject
unknown modes with no command sent, else select the manual or schedule verb,
send, and validate with the mode as the expected echoed value. The result is
the updated snapshot, the updated client state, the wire lines written and the
returned boolean. -/
def async_set_hvac_mode (st : NetXThermostatState) (cs : ClientState)
    (co : ConnectOutcome) (o : CommandOutcome) (mode : String) :
    NetXThermostatState × ClientState × List String × Bool :=
  let mode := pyUpper mode
  if ¬ ["OFF", "HEAT", "COOL", "AUTO"].contains mode then (st, cs, [], false)
  else
    let command :=
      (if st.is_manual_mode then CMD_SET_MODE_MANUAL else CMD_SET_MODE_SCHEDULE) ++ mode
    match send_command cs st co o command with
    | (cs1, st1, sent, resp) =>
      (st1, cs1, sent, validate_write_response command resp (some mode))

/-- `NetXThermostatAPI.async_set_fan_mode`: same shape with the fan verbs and
the `AUTO`/`ON` mode set. -/
def async_set_fan_mode (st : NetXThermostatState) (cs : ClientState)
    (co : ConnectOutcome) (o : CommandOutcome) (mode : String) :
    NetXThermostatState × ClientState × List String × Bool :=
  let mode := pyUpper mode
  if ¬ ["AUTO", "ON"].contains mode then (st, cs, [], false)
  else
    let command :=
      (if st.is_manual_mode then CMD_SET_FAN_MANUAL else CMD_SET_FAN_SCHEDULE) ++ mode
    match send_command cs st co o command with
    | (cs1, st1, sent, resp) =>
      (st1, cs1, sent, validate_write_response command resp (some mode))

/-- `NetXThermostatAPI.async_set_relay_mode`: single verb, `OFF`/`HUM`/`DEHUM`
mode set, and no expected echoed value is passed to validation. -/
def async_set_relay_mode (st : NetXThermostatState) (cs : ClientState)
    (co : ConnectOutcome) (o : CommandOutcome) (mode : String) :
    NetXThermostatState × ClientState × List String × Bool :=
  let mode := pyUpper mode
  if ¬ ["OFF", "HUM", "DEHUM"].contains mode then (st, cs, [], false)
  else
    let command := CMD_SET_RELAY_MODE ++ mode
    match send_command cs st co o command with
    | (cs1, st1, sent, resp) =>
      (st1, cs1, sent, validate_write_response command resp none)

/-- The wire command `async_set_humidification` builds: mode from the
`independent` flag, setpoint clamped to `[10, 90]`, variance clamped to
`[2, 10]`. -/
def humCommandString (independent : Bool) (setpoint variance : Int) : String :=
  let mode := if independent then "IH" else "WH"
  let setpoint := max 10 (min 90 setpoint)
  let variance := max 2 (min 10 variance)
  CMD_SET_HUMIDIFICATION ++ mode ++ "," ++ toString setpoint ++ "," ++ toString variance

/-- The wire command `async_set_dehumidification` builds, with the cooling
mode tokens and the same clamping. -/
def dehumCommandString (independent : Bool) (setpoint variance : Int) : String :=
  let mode := if independent then "IC" else "WC"
  let setpoint := max 10 (min 90 setpoint)
  let variance := max 2 (min 10 variance)
  CMD_SET_DEHUMIDIFICATION ++ mode ++ "," ++ toString setpoint ++ "," ++ toString variance

/-- `NetXThermostatAPI.async_set_humidification`: build the clamped command,
send it, validate with no expected echoed value. -/
def async_set_humidification (st : NetXThermostatState) (cs : ClientState)
    (co : ConnectOutcome) (o : CommandOutcome) (independent : Bool)
    (setpoint variance : Int) :
    NetXThermostatState × ClientState × List String × Bool :=
  let command := humCommandString independent setpoint variance
  match send_command cs st co o command with
  | (cs1, st1, sent, resp) =>
    (st1, cs1, sent, validate_write_response command resp none)

/-- `NetXThermostatAPI.async_set_dehumidification`: same with the
dehumidification verb. -/
def async_set_dehumidification (st : NetXThermostatState) (cs : ClientState)
    (co : ConnectOutcome) (o : CommandOutcome) (independent : Bool)
    (setpoint variance : Int) :
    NetXThermostatState × ClientState × List String × Bool :=
  let command := dehumCommandString independent setpoint variance
  match send_command cs st co o command with
  | (cs1, st1, sent, resp) =>
    (st1, cs1, sent, validate_write_response command resp none)

/-! ## Client transition system -/

/-- One externally observable client action together with the environment
outcomes it runs against. -/
inductive Event where
  | connectEv (o : ConnectOutcome)
  | disconnectEv
  | commandEv (co : ConnectOutcome) (o : CommandOutcome) (command : String)
deriving DecidableEq, Repr

/-- The client-state transition of one event. -/
def step (cs : ClientState) (st : NetXThermostatState) : Event → ClientState × NetXThermostatState
  | .connectEv o => match connect cs st o with | (cs1, st1, _, _) => (cs1, st1)
  | .disconnectEv => disconnect cs st
  | .commandEv co o cmd =>
      match send_command cs st co o cmd with | (cs1, st1, _, _) => (cs1, st1)

/-- Whether a connect attempt ends in a successful login handshake. -/
def connectOk : ConnectOutcome → Bool
  | .loginResponse resp => pyStartsWith (pyStrip resp) RESP_LOGIN_OK
  | _ => false

/-- Events on whose every run the code clears the authenticated flag: any
failed or error-struck connect, an explicit disconnect, and any command whose
round-trip ends in timeout or I/O error. -/
def eventClearsAuth : Event → Bool
  | .connectEv o => ¬ connectOk o
  | .disconnectEv => true
  | .commandEv _ o _ => match o with | .response _ => false | _ => true

/-- Events that contain a successful login handshake. -/
def eventLoginOk : Event → Bool
  | .connectEv o => connectOk o
  | .disconnectEv => false
  | .commandEv co _ _ => connectOk co

/-- Commands whose round-trip returned a response line (no timeout or I/O
error). -/
def eventCleanCommand : Event → Bool
  | .commandEv _ (.response _) _ => true
  | _ => false

/-- The structural invariant of the client: the authenticated flag is set only
while a stream pair is held. -/
def goodState (cs : ClientState) : Bool :=
  !cs.authenticated || cs.hasStream

/-! ## CO2 coordinator merge (`coordinator.py`, `_async_update_data`) -/

/-- The nested `co2` JSON object; each field is what `co2_info.get(key)`
yields, `none` for a missing key. -/
structure CO2Info where
  level : Option String := none
  peak_level : Option String := none
  alert_level : Option String := none
  ctype : Option String := none
  valid : Option String := none
  in_alert : Option String := none
  peak_reset : Option String := none
  display : Option String := none
  relay_high : Option String := none
  relay_failure : Option String := none
deriving DecidableEq, Repr

/-- A parsed `co2.json` document: its Python truthiness, whether the key
`"co2"` is present, and the nested object. -/
structure CO2Doc where
  truthy : Bool := true
  hasCO2Key : Bool := true
  co2 : CO2Info := {}
deriving DecidableEq, Repr

/-- The `data[...] = co2_info.get(...)` assignments the coordinator's update
performs for the CO2 block, in source order; `json = none` models a non-200
status body, a `ClientError` or invalid JSON (all merge nothing). -/
def co2Assignments (status : Nat) (json : Option CO2Doc) : List (String × Option String) :=
  if status = 200 then
    match json with
    | some doc =>
      if doc.truthy && doc.hasCO2Key then
        [("co2_level", doc.co2.level), ("co2_peak_level", doc.co2.peak_level),
         ("co2_alert_level", doc.co2.alert_level), ("co2_type", doc.co2.ctype),
         ("co2_valid", doc.co2.valid), ("co2_in_alert", doc.co2.in_alert),
         ("co2_peak_reset", doc.co2.peak_reset), ("co2_display", doc.co2.display),
         ("co2_relay_high", doc.co2.relay_high), ("co2_relay_failure", doc.co2.relay_failure)]
      else []
    | none => []
  else []

/-! ## Helper lemmas -/

theorem splitChars_ne_nil (sep : Char) (l : List Char) : splitChars sep l ≠ [] := by
  induction l with
  | nil => simp [splitChars]
  | cons c rest ih =>
    unfold splitChars
    cases h : splitChars sep rest with
    | nil => exact absurd h ih
    | cons g gs => by_cases hc : c = sep <;> simp [hc]

theorem pySplit_length_pos (sep : Char) (s : String) : 1 ≤ (pySplit sep s).length := by
  unfold pySplit
  rw [List.length_map]
  exact List.length_pos.mpr (splitChars_ne_nil sep s.data)

theorem contains_breakAt (sep : Char) (l : List Char) (h : l.contains sep = true) :
    ∃ a b, breakAt sep l = some (a, b) := by
  induction l with
  | nil => simp at h
  | cons c rest ih =>
    by_cases hc : c = sep
    · exact ⟨[], rest, by unfold breakAt; rw [if_pos hc]⟩
    · simp only [List.contains_cons, Bool.or_eq_true, beq_iff_eq] at h
      rcases h with h | h
      · exact absurd h.symm hc
      · obtain ⟨a, b, hab⟩ := ih h
        exact ⟨c :: a, b, by unfold breakAt; rw [if_neg hc, hab]⟩

theorem pySplit1_length_of_contains (sep : Char) (s : String)
    (h : s.data.contains sep = true) : (pySplit1 sep s).length = 2 := by
  obtain ⟨a, b, hab⟩ := contains_breakAt sep s.data h
  unfold pySplit1
  rw [hab]
  rfl

theorem humCommandString_clamp (ind : Bool) (sp v : Int) :
    humCommandString ind (max 10 (min 90 sp)) (max 2 (min 10 v)) = humCommandString ind sp v := by
  unfold humCommandString
  have h1 : max 10 (min 90 (max 10 (min 90 sp))) = max 10 (min 90 sp) := by omega
  have h2 : max 2 (min 10 (max 2 (min 10 v))) = max 2 (min 10 v) := by omega
  rw [h1, h2]

theorem dehumCommandString_clamp (ind : Bool) (sp v : Int) :
    dehumCommandString ind (max 10 (min 90 sp)) (max 2 (min 10 v)) = dehumCommandString ind sp v := by
  unfold dehumCommandString
  have h1 : max 10 (min 90 (max 10 (min 90 sp))) = max 10 (min 90 sp) := by omega
  have h2 : max 2 (min 10 (max 2 (min 10 v))) = max 2 (min 10 v) := by omega
  rw [h1, h2]

/-! ## Claim theorems -/

/-- C1 (amended): a write reports success iff the response is present,
contains a `:` separator, and starts with the command's text before its first
`D`; additionally, when the operation supplies an expected echoed value (hvac
mode, fan mode, cool/heat setpoint, temperature scale), the stripped text
after the first `:` must equal it. Relay-mode and (de)humidification writes
pass no expected value, so for them any present, colon-containing,
prefix-matching response is accepted. -/
theorem validate_write_response_success_iff (command : String) (response : Option String)
    (expected : Option String) :
    validate_write_response command response expected = true ↔
      ∃ resp, response = some resp ∧ strContains resp ':' = true ∧
        pyStartsWith resp ((pySplit 'D' command).getD 0 "") = true ∧
        ∀ e, expected = some e → pyStrip ((pySplit1 ':' resp).getD 1 "") = e := by
  cases response with
  | none => simp [validate_write_response]
  | some resp =>
    by_cases hcol : strContains resp ':' = true
    · have hlen : (pySplit1 ':' resp).length = 2 :=
        pySplit1_length_of_contains ':' resp (by unfold strContains at hcol; exact hcol)
      by_cases hpre : pyStartsWith resp ((pySplit 'D' command)[0]?.getD "") = true
      · cases expected with
        | none =>
          simp [validate_write_response, hcol, hlen, hpre, List.getD, List.get?_eq_getElem?]
        | some e =>
          by_cases hval : pyStrip ((pySplit1 ':' resp)[1]?.getD "") = e
          · simp [validate_write_response, hcol, hlen, hpre, hval, List.getD,
              List.get?_eq_getElem?]
          · simp [validate_write_response, hcol, hlen, hpre, hval, List.getD,
              List.get?_eq_getElem?]
      · simp [validate_write_response, hcol, hlen, hpre, List.getD, List.get?_eq_getElem?]
    · simp [validate_write_response, hcol]

theorem validate_write_response_success_iff_witness :
    validate_write_response "WMRF1DOFF" (some "WMRF1DOFF:OK") none = true :=
  (validate_write_response_success_iff "WMRF1DOFF" (some "WMRF1DOFF:OK") none).mpr
    ⟨"WMRF1DOFF:OK", rfl, by decide, by decide, fun e h => nomatch h⟩

/-- C1 (counterexample): the hvac-mode write at command `WNMS1DHEAT` with
response `WNMS1DHEAT:COOL` — non-empty and colon-containing — returns
failure, because the echoed value `COOL` differs from the expected `HEAT`;
so acceptance is not equivalent to "non-empty and contains a colon". -/
theorem write_response_colon_not_sufficient_cex :
    (("WNMS1DHEAT:COOL" : String) ≠ "" ∧ strContains "WNMS1DHEAT:COOL" ':' = true) ∧
    (async_set_hvac_mode {} { authenticated := true, hasStream := true } .openTimeout
        (.response "WNMS1DHEAT:COOL") "HEAT").2.2.2 = false := by
  decide

/-- C2 (amended): for a humidification or dehumidification payload with at
least three comma-separated fields whose setpoint field does not parse as an
integer, the merge is not atomic: the control-mode field is already assigned
(stripped, uppercased) before the setpoint parse raises, so only setpoint and
variance retain their prior values. -/
theorem humidification_bad_setpoint_partial (st : NetXThermostatState) (data : String)
    (h3 : 3 ≤ (pySplit ',' data).length)
    (hsp : pyInt? (pyStrip ((pySplit ',' data).getD 1 "")) = none) :
    parse_humidification st data =
      { st with hum_control_mode := some (pyUpper (pyStrip ((pySplit ',' data).getD 0 ""))) } ∧
    parse_dehumidification st data =
      { st with dehum_control_mode := some (pyUpper (pyStrip ((pySplit ',' data).getD 0 ""))) } := by
  unfold parse_humidification parse_dehumidification
  rw [if_pos h3, if_pos h3]
  simp only [List.getD, List.get?_eq_getElem?] at hsp
  simp [hsp]

theorem humidification_bad_setpoint_partial_witness :
    parse_humidification {} "WH,abc,5" = { hum_control_mode := some "WH" } ∧
    parse_dehumidification {} "WH,abc,5" = { dehum_control_mode := some "WH" } := by
  have h := humidification_bad_setpoint_partial {} "WH,abc,5" (by decide) (by decide)
  exact ⟨by rw [h.1]; decide, by rw [h.2]; decide⟩

/-- C2 (counterexample): on payload `WH,abc,5` against a state holding mode
`IH`, setpoint 40, variance 3, the merge changes the mode to `WH` while
keeping the other two — the record is not discarded wholesale as claimed. -/
theorem humidification_discard_cex :
    parse_humidification
        { hum_control_mode := some "IH", hum_setpoint := some 40, hum_variance := some 3 }
        "WH,abc,5" =
      { hum_control_mode := some "WH", hum_setpoint := some 40, hum_variance := some 3 } := by
  decide

/-- C3 (amended): the coordinator's CO2 merge assigns the level, peak-level
and alert-level fields whenever the HTTP status is 200 and the JSON document
is truthy and contains the key `co2`; the nested `valid` field is copied
into the data as `co2_valid` but never gates the merge — the set of assigned
keys is independent of `valid`'s value. -/
theorem co2_merge_ignores_valid (doc : CO2Doc) (v : Option String) :
    ((doc.truthy && doc.hasCO2Key) = true →
      ("co2_level", doc.co2.level) ∈ co2Assignments 200 (some doc) ∧
      ("co2_peak_level", doc.co2.peak_level) ∈ co2Assignments 200 (some doc) ∧
      ("co2_alert_level", doc.co2.alert_level) ∈ co2Assignments 200 (some doc)) ∧
    (co2Assignments 200 (some { doc with co2 := { doc.co2 with valid := v } })).map Prod.fst =
      (co2Assignments 200 (some doc)).map Prod.fst := by
  constructor
  · intro h
    simp [co2Assignments, h]
  · by_cases hk : (doc.truthy && doc.hasCO2Key) = true <;>
      simp [co2Assignments, hk]

theorem co2_merge_ignores_valid_witness :
    ("co2_level", some "900") ∈
      co2Assignments 200 (some { co2 := { valid := some "false", level := some "900" } }) :=
  ((co2_merge_ignores_valid { co2 := { valid := some "false", level := some "900" } }
      (some "true")).1 (by decide)).1

/-- C3 (counterexample): the JSON `{"co2":{"valid":"false","level":"900"}}`
has `valid` different from `"true"`, yet the update still assigns
`co2_level = "900"` — the CO2 block is not skipped. -/
theorem co2_valid_false_still_merged_cex :
    ({ co2 := { valid := some "false", level := some "900" } } : CO2Doc).co2.valid
        ≠ some "true" ∧
    ("co2_level", some "900") ∈
      co2Assignments 200 (some { co2 := { valid := some "false", level := some "900" } }) := by
  decide

/-- C4: an "all states" payload with fewer than 11 comma-separated fields
leaves every field of the snapshot unchanged — the record is discarded
wholesale with no partial merge. -/
theorem all_states_short_payload_frame (st : NetXThermostatState) (data : String)
    (h : (pySplit ',' data).length < 11) :
    parse_all_states st data = st := by
  unfold parse_all_states
  rw [if_neg]
  omega

theorem all_states_short_payload_frame_witness :
    (pySplit ',' "68,NA").length < 11 ∧ parse_all_states {} "68,NA" = {} :=
  ⟨by decide, all_states_short_payload_frame {} "68,NA" (by decide)⟩

/-- C5: temperature-token parsing is total: any token whose stripped
uppercase form is one of `NA`, `--`, the empty string or `N/A` yields absent,
and any other token yields exactly what `float()` yields on the normalized
token — the parsed value when it parses, absent otherwise, never an error. -/
theorem parse_temp_total (t : String) :
    (naTokens.contains (pyUpper (pyStrip t)) = true → parse_temp t = none) ∧
    (naTokens.contains (pyUpper (pyStrip t)) = false →
      parse_temp t = pyFloat? (pyUpper (pyStrip t))) := by
  refine ⟨fun h => ?_, fun h => ?_⟩ <;> unfold parse_temp
  · rw [if_pos h]
  · rw [if_neg (by rw [h]; exact Bool.false_ne_true)]

theorem parse_temp_total_witness :
    parse_temp "na" = none ∧ parse_temp "nA" = none ∧ parse_temp "qq" = none ∧
    (parse_temp "68.5").isSome = true := by
  refine ⟨(parse_temp_total "na").1 (by decide), (parse_temp_total "nA").1 (by decide), ?_, ?_⟩
  · rw [(parse_temp_total "qq").2 (by decide)]; decide
  · rw [(parse_temp_total "68.5").2 (by decide)]; decide

/-- C6: in an "all states" payload with at least 11 fields, a stage field
parsing to 0 makes the merged state's stage 0 and the derived idle flag true
regardless of the operating-status field, and a stage token that fails to
parse as an integer sets stage to absent with the idle flag true. -/
theorem stage_zero_or_unparsed_is_idle (st : NetXThermostatState) (data : String)
    (h : 11 ≤ (pySplit ',' data).length) :
    (pyInt? (pyStrip ((pySplit ',' data).getD 9 "")) = some 0 →
      (parse_all_states st data).stage = some 0 ∧
      isIdle (parse_all_states st data) = true) ∧
    (pyInt? (pyStrip ((pySplit ',' data).getD 9 "")) = none →
      (parse_all_states st data).stage = none ∧
      isIdle (parse_all_states st data) = true) := by
  have hge : (pySplit ',' data).length ≥ 11 := h
  constructor <;> intro h9 <;>
    simp only [List.getD, List.get?_eq_getElem?] at h9 <;>
    rcases hc : pyInt? (pyStrip ((pySplit ',' data)[6]?.getD "")) with _ | cv <;>
    rcases hh : pyInt? (pyStrip ((pySplit ',' data)[7]?.getD "")) with _ | hv <;>
    simp [parse_all_states, hge, hc, hh, h9, isIdle]

theorem stage_zero_or_unparsed_is_idle_witness :
    ((parse_all_states {} "68,NA,HEAT,FAN ON,NO,NO,77,68,COOL,0,NONE").stage = some 0 ∧
      isIdle (parse_all_states {} "68,NA,HEAT,FAN ON,NO,NO,77,68,COOL,0,NONE") = true) ∧
    ((parse_all_states {} "68,NA,HEAT,FAN ON,NO,NO,77,68,HEAT,xx,NONE").stage = none ∧
      isIdle (parse_all_states {} "68,NA,HEAT,FAN ON,NO,NO,77,68,HEAT,xx,NONE") = true) :=
  ⟨(stage_zero_or_unparsed_is_idle {} "68,NA,HEAT,FAN ON,NO,NO,77,68,COOL,0,NONE"
      (by decide)).1 (by decide),
   (stage_zero_or_unparsed_is_idle {} "68,NA,HEAT,FAN ON,NO,NO,77,68,HEAT,xx,NONE"
      (by decide)).2 (by decide)⟩

/-- C7: on every humidification or dehumidification write, the setpoint and
variance used for the wire command are the originals clamped into [10, 90]
and [2, 10] (unchanged when already in range, silently replaced otherwise):
the operation behaves identically to one called with the clamped values. In
particular `setHumidification(independent=True, setpoint=95, variance=15)`
builds the command with setpoint 90 and variance 10. -/
theorem humidification_setpoints_clamped (st : NetXThermostatState) (cs : ClientState)
    (co : ConnectOutcome) (o : CommandOutcome) (ind : Bool) (sp v : Int) :
    (∃ sp2 v2 : Int, 10 ≤ sp2 ∧ sp2 ≤ 90 ∧ 2 ≤ v2 ∧ v2 ≤ 10 ∧
      (10 ≤ sp → sp ≤ 90 → sp2 = sp) ∧ (2 ≤ v → v ≤ 10 → v2 = v) ∧
      async_set_humidification st cs co o ind sp v =
        async_set_humidification st cs co o ind sp2 v2 ∧
      async_set_dehumidification st cs co o ind sp v =
        async_set_dehumidification st cs co o ind sp2 v2) ∧
    humCommandString true 95 15 = "WMHS1DIH,90,10" ∧
    dehumCommandString true 95 15 = "WMDHS1DIC,90,10" := by
  refine ⟨⟨max 10 (min 90 sp), max 2 (min 10 v), by omega, by omega, by omega, by omega,
    by omega, by omega, ?_, ?_⟩, by decide, by decide⟩
  · unfold async_set_humidification
    rw [humCommandString_clamp]
  · unfold async_set_dehumidification
    rw [dehumCommandString_clamp]

theorem humidification_setpoints_clamped_witness :
    humCommandString true 95 15 = "WMHS1DIH,90,10" :=
  (humidification_setpoints_clamped {} {} .openTimeout .timeout true 95 15).2.1

/-- C8 (amended): a relay-mode payload always splits into at least one field
(the empty payload being one empty field, which sets relay1 to the empty
string); with two or more fields both relay modes are set to the respective
stripped-uppercased tokens, and with exactly one field only relay1 is set. -/
theorem relay_mode_parse_cases (st : NetXThermostatState) (data : String) :
    1 ≤ (pySplit ',' data).length ∧
    (2 ≤ (pySplit ',' data).length →
      parse_relay_mode st data =
        { st with relay1_mode := some (pyUpper (pyStrip ((pySplit ',' data).getD 0 "")))
                , relay2_mode := some (pyUpper (pyStrip ((pySplit ',' data).getD 1 ""))) }) ∧
    ((pySplit ',' data).length = 1 →
      parse_relay_mode st data =
        { st with relay1_mode := some (pyUpper (pyStrip ((pySplit ',' data).getD 0 ""))) }) := by
  refine ⟨pySplit_length_pos ',' data, fun h => ?_, fun h => ?_⟩
  · unfold parse_relay_mode
    rw [if_pos h]
  · unfold parse_relay_mode
    rw [if_neg (by omega), if_pos h]

theorem relay_mode_parse_cases_witness :
    parse_relay_mode {} "hum, off" =
      { relay1_mode := some "HUM", relay2_mode := some "OFF" } ∧
    parse_relay_mode {} " dehum " = { relay1_mode := some "DEHUM" } := by
  refine ⟨?_, ?_⟩
  · rw [(relay_mode_parse_cases {} "hum, off").2.1 (by decide)]; decide
  · rw [(relay_mode_parse_cases {} " dehum ").2.2 (by decide)]; decide

/-- C8 (counterexample): an empty relay-mode payload is not a no-op: it sets
relay1 to the empty string, overwriting a previous `OFF`. -/
theorem relay_mode_empty_payload_cex :
    (parse_relay_mode { relay1_mode := some "OFF", relay2_mode := some "HUM" } "").relay1_mode
        = some "" ∧
    (some "" : Option String) ≠ some "OFF" := by decide

/-- C9: in every client state satisfying the structural invariant
(authenticated implies a stream pair is held — true of every reachable
state), the invariant is preserved by every event; every error path (failed
or error-struck connect, command timeout or I/O error, explicit disconnect)
leaves the authenticated flag false; and the flag can be true after a step
only when the step contained a successful login handshake or the client was
already authenticated and the command round-trip completed cleanly — it is
never left stale after an I/O failure. -/
theorem authenticated_flag_lifecycle (cs : ClientState) (st : NetXThermostatState)
    (e : Event) (hgood : goodState cs = true) :
    goodState (step cs st e).1 = true ∧
    (eventClearsAuth e = true → ((step cs st e).1).authenticated = false) ∧
    (((step cs st e).1).authenticated = true →
      eventLoginOk e = true ∨ (cs.authenticated = true ∧ eventCleanCommand e = true)) := by
  cases e with
  | connectEv o =>
    cases o with
    | openTimeout =>
      simp [step, connect, close_connection_locked, goodState, eventClearsAuth,
        eventLoginOk, eventCleanCommand, connectOk]
    | openOSError msg =>
      simp [step, connect, close_connection_locked, goodState, eventClearsAuth,
        eventLoginOk, eventCleanCommand, connectOk]
    | loginTimeout =>
      simp [step, connect, close_connection_locked, goodState, eventClearsAuth,
        eventLoginOk, eventCleanCommand, connectOk]
    | loginIOError msg =>
      simp [step, connect, close_connection_locked, goodState, eventClearsAuth,
        eventLoginOk, eventCleanCommand, connectOk]
    | loginResponse resp =>
      by_cases hr : pyStartsWith (pyStrip resp) RESP_LOGIN_OK = true <;>
        simp [step, connect, close_connection_locked, goodState, eventClearsAuth,
          eventLoginOk, eventCleanCommand, connectOk, hr]
  | disconnectEv =>
    simp [step, disconnect, close_connection_locked, goodState, eventClearsAuth,
      eventLoginOk, eventCleanCommand]
  | commandEv co o cmd =>
    by_cases ha : cs.authenticated = true
    · have hs : cs.hasStream = true := by
        unfold goodState at hgood
        rw [ha] at hgood
        simpa using hgood
      cases o <;>
        simp [step, send_command, send_command_exchange, ha, hs, goodState,
          eventClearsAuth, eventLoginOk, eventCleanCommand, connectOk]
    · have ha2 : cs.authenticated = false := by simpa using ha
      cases co with
      | openTimeout =>
        cases o <;>
          simp [step, send_command, send_command_exchange, connect,
            close_connection_locked, ha2, goodState, eventClearsAuth, eventLoginOk,
            eventCleanCommand, connectOk]
      | openOSError msg =>
        cases o <;>
          simp [step, send_command, send_command_exchange, connect,
            close_connection_locked, ha2, goodState, eventClearsAuth, eventLoginOk,
            eventCleanCommand, connectOk]
      | loginTimeout =>
        cases o <;>
          simp [step, send_command, send_command_exchange, connect,
            close_connection_locked, ha2, goodState, eventClearsAuth, eventLoginOk,
            eventCleanCommand, connectOk]
      | loginIOError msg =>
        cases o <;>
          simp [step, send_command, send_command_exchange, connect,
            close_connection_locked, ha2, goodState, eventClearsAuth, eventLoginOk,
            eventCleanCommand, connectOk]
      | loginResponse resp =>
        by_cases hr : pyStartsWith (pyStrip resp) RESP_LOGIN_OK = true <;>
          cases o <;>
            simp [step, send_command, send_command_exchange, connect,
              close_connection_locked, ha2, hr, goodState, eventClearsAuth,
              eventLoginOk, eventCleanCommand, connectOk]

theorem authenticated_flag_lifecycle_witness :
    ((step { authenticated := true, hasStream := true } {} .disconnectEv).1).authenticated
      = false :=
  (authenticated_flag_lifecycle { authenticated := true, hasStream := true } {}
      .disconnectEv (by decide)).2.1 (by decide)

/-- C10: a mode argument whose uppercase form is outside the accepted set
(hvac: OFF/HEAT/COOL/AUTO, fan: AUTO/ON, relay: OFF/HUM/DEHUM) makes the
operation return false with no command sent on the connection, the snapshot
untouched and the client state untouched. -/
theorem invalid_mode_rejected (st : NetXThermostatState) (cs : ClientState)
    (co : ConnectOutcome) (o : CommandOutcome) (mode : String) :
    (["OFF", "HEAT", "COOL", "AUTO"].contains (pyUpper mode) = false →
      async_set_hvac_mode st cs co o mode = (st, cs, [], false)) ∧
    (["AUTO", "ON"].contains (pyUpper mode) = false →
      async_set_fan_mode st cs co o mode = (st, cs, [], false)) ∧
    (["OFF", "HUM", "DEHUM"].contains (pyUpper mode) = false →
      async_set_relay_mode st cs co o mode = (st, cs, [], false)) := by
  refine ⟨fun h => ?_, fun h => ?_, fun h => ?_⟩
  · unfold async_set_hvac_mode
    rw [if_pos (by rw [h]; exact Bool.false_ne_true)]
  · unfold async_set_fan_mode
    rw [if_pos (by rw [h]; exact Bool.false_ne_true)]
  · unfold async_set_relay_mode
    rw [if_pos (by rw [h]; exact Bool.false_ne_true)]

theorem invalid_mode_rejected_witness :
    async_set_hvac_mode {} {} .openTimeout .timeout "band" = ({}, {}, [], false) ∧
    async_set_fan_mode {} {} .openTimeout .timeout "band" = ({}, {}, [], false) ∧
    async_set_relay_mode {} {} .openTimeout .timeout "band" = ({}, {}, [], false) :=
  ⟨(invalid_mode_rejected {} {} .openTimeout .timeout "band").1 (by decide),
   (invalid_mode_rejected {} {} .openTimeout .timeout "band").2.1 (by decide),
   (invalid_mode_rejected {} {} .openTimeout .timeout "band").2.2 (by decide)⟩

end NetX
